import Mathlib

/-!
Shallow embedding of the medident order/checkout core.

Sources embedded:
* `order/models.py` — `Order`, `Checkout`, `CheckoutItem`, `DailySales` and the
  three status enumerations (UUID primary keys are modelled as `Nat` identifiers,
  timestamps as an abstract `Nat` calendar-date key).
* `products/models.py` — the `Product` fields the checkout engine reads
  (`price_toman`, `in_stock`, `stock_quantity`).  `stock_quantity` is carried as
  `Option Int` so that the effect of the `F("stock_quantity") - quantity` update
  is represented exactly, including when it drives the value below zero.
* `order/services.py` — `create_order_from_checkout`.  The random
  `_generate_order_number()` and `timezone.now()` are modelled as parameters
  (`order_number`, `today`).  `@transaction.atomic` is modelled by the
  `Except` result: an error carries no state, so nothing is persisted on failure.
* `order/views.py` — `OrderPaymentUpdateView.patch` (lines 140–147),
  `AdminOrderFulfillmentUpdateView.patch` (lines 231–240) and
  `AdminDashboardOverviewView.get` (lines 287–314).
-/

namespace Medident

/-! ### Enumerations (`order/models.py`) -/

inductive OrderStatus where
  | CREATED
  | REQUIRES_PAYMENT
  | COMPLETED
deriving DecidableEq, Repr

inductive PaymentStatus where
  | UNPAID
  | PAID
  | FAILED
deriving DecidableEq, Repr

inductive FulfillmentStatus where
  | UNTRACKED
  | FAILED
  | SHIPPING
  | SHIPPED
deriving DecidableEq, Repr

/-! ### Entities -/

/-- `products/models.py :: Product`, restricted to the fields the order core
reads.  `stock_quantity` is nullable (`Option`); it is given carrier `Int`
because the SQL decrement `stock_quantity = stock_quantity - N` is plain
integer arithmetic. -/
structure Product where
  pid : Nat
  title : String
  price_toman : Nat
  in_stock : Bool
  stock_quantity : Option Int
deriving DecidableEq, Repr

/-- `order/models.py :: Order`.  `created_date` stands for
`date(created_at)`, the key used by the daily-sales aggregation. -/
structure OrderState where
  order_number : String
  user_id : Nat
  amount_toman : Nat
  status : OrderStatus
  payment_status : PaymentStatus
  fulfillment_status : FulfillmentStatus
  created_date : Nat
deriving DecidableEq, Repr

/-- `order/models.py :: Checkout` (the shipping/contact snapshot plus the
client-declared total). -/
structure CheckoutState where
  phone : String
  national_id : String
  city : String
  address : String
  postal_code : String
  client_total_toman : Nat
deriving DecidableEq, Repr

/-- `order/models.py :: CheckoutItem` / the `line_items` dict built in
`create_order_from_checkout`. -/
structure LineItem where
  product : Product
  quantity : Nat
  unit_price_toman : Nat
  line_total_toman : Nat
deriving DecidableEq, Repr

/-- One element of the `items` list accepted by `CheckoutCreateView`
(`CheckoutItemInputSerializer`: `productId`, `quantity`). -/
structure CartItem where
  productId : Nat
  quantity : Nat
deriving DecidableEq, Repr

/-- `order/models.py :: DailySales` (one row per calendar date). -/
structure DailyRow where
  date : Nat
  total_toman : Nat
  orders_count : Nat
deriving DecidableEq, Repr

/-! ### Checkout engine (`order/services.py :: create_order_from_checkout`) -/

/-- The distinct `ValueError`s raised by `create_order_from_checkout`. -/
inductive CheckoutError where
  | productsNotFound (missing : List Nat)
  | outOfStock (title : String)
  | insufficientStock (title : String)
  | totalMismatch
deriving DecidableEq, Repr

/-- The rows persisted by a successful checkout, plus the catalog after the
stock decrements. -/
structure CheckoutResult where
  order : OrderState
  checkout : CheckoutState
  items : List LineItem
  catalog : List Product
deriving DecidableEq, Repr

/-- Lookup in the `by_id` dict (`by_id = {str(p.id): p for p in products}`). -/
def findProduct (catalog : List Product) (pid : Nat) : Option Product :=
  catalog.find? (fun p => p.pid == pid)

/-- `if product.stock_quantity is not None and quantity > product.stock_quantity`. -/
def stockTooLow (product : Product) (quantity : Nat) : Bool :=
  product.stock_quantity.any (fun s => decide ((quantity : Int) > s))

/-- The `line_items.append({...})` record: frozen unit price from the current
catalog price, `line_total = unit_price * quantity`. -/
def mkLineItem (product : Product) (quantity : Nat) : LineItem :=
  { product := product
    quantity := quantity
    unit_price_toman := product.price_toman
    line_total_toman := product.price_toman * quantity }

/-- The per-item validation loop of `create_order_from_checkout`
(lines 28–48): first failing line aborts with its `ValueError`. -/
def validateItems (by_id : Nat → Option Product) :
    List CartItem → Except CheckoutError (List LineItem)
  | [] => .ok []
  | item :: rest =>
    match by_id item.productId with
    | none => .error (.productsNotFound [item.productId])
    | some product =>
      if product.in_stock = false then
        .error (.outOfStock product.title)
      else if stockTooLow product item.quantity then
        .error (.insufficientStock product.title)
      else
        (validateItems by_id rest).map (fun line_items =>
          mkLineItem product item.quantity :: line_items)

/-- One `Product.objects.filter(id=product.id).update(stock_quantity=F("stock_quantity") - quantity)`. -/
def decBy (n : Int) (p : Product) : Product :=
  { p with stock_quantity := p.stock_quantity.map (fun s => s - n) }

def decrementStock (catalog : List Product) (pid : Nat) (quantity : Nat) :
    List Product :=
  catalog.map (fun p => if p.pid == pid then decBy (quantity : Int) p else p)

/-- The final stock-decrement loop (lines 87–92): for every line whose
snapshot product tracks finite stock, subtract its quantity from the current
database value. -/
def decrementAll (catalog : List Product) : List LineItem → List Product
  | [] => catalog
  | li :: rest =>
    let catalog1 :=
      if li.product.stock_quantity.isSome then
        decrementStock catalog li.product.pid li.quantity
      else catalog
    decrementAll catalog1 rest

/-- `order/services.py :: create_order_from_checkout`.  `order_number`
(randomly generated in the source) and `today` (= `date(timezone.now())`) are
passed in; an `Except.error` result models the rolled-back transaction, so no
order, checkout, items or catalog change exists on failure. -/
def create_order_from_checkout (catalog : List Product) (user_id : Nat)
    (order_number : String) (today : Nat)
    (phone national_id city address postal_code : String)
    (client_total_toman : Nat) (items : List CartItem) :
    Except CheckoutError CheckoutResult :=
  let product_ids := items.map (·.productId)
  let missing := product_ids.filter (fun pid => (findProduct catalog pid).isNone)
  if missing = [] then
    match validateItems (findProduct catalog) items with
    | .error e => .error e
    | .ok line_items =>
      let server_total := (line_items.map (·.line_total_toman)).sum
      if client_total_toman ≠ server_total then
        .error .totalMismatch
      else
        .ok
          { order :=
              { order_number := order_number
                user_id := user_id
                amount_toman := server_total
                status := OrderStatus.REQUIRES_PAYMENT
                payment_status := PaymentStatus.UNPAID
                fulfillment_status := FulfillmentStatus.UNTRACKED
                created_date := today }
            checkout :=
              { phone := phone
                national_id := national_id
                city := city
                address := address
                postal_code := postal_code
                client_total_toman := client_total_toman }
            items := line_items
            catalog := decrementAll catalog line_items }
  else
    .error (.productsNotFound missing)

/-! ### Sales aggregator -/

/-- Modelled from the spec: `record_daily_sales_for_order` is imported by
`order/views.py` from `order/services.py` but its body is absent from the
sources; spec §4.3 says "Upserts the DailySales row for `date(order.created_at)`:
if absent, create with total=order.amount, count=1; if present, atomically
increment total by order.amount and count by 1." -/
def record_daily_sales_for_order (o : OrderState) (sales : List DailyRow) :
    List DailyRow :=
  if sales.any (fun r => r.date == o.created_date) then
    sales.map (fun r =>
      if r.date == o.created_date then
        { r with
            total_toman := r.total_toman + o.amount_toman
            orders_count := r.orders_count + 1 }
      else r)
  else
    sales ++ [{ date := o.created_date
                total_toman := o.amount_toman
                orders_count := 1 }]

/-- Row lookup by date (the `DailySales` table has `date` unique). -/
def findRow (sales : List DailyRow) (d : Nat) : Option DailyRow :=
  sales.find? (fun r => r.date == d)

/-- Total of `orders_count` over the whole table: the number of sale
recordings the table has absorbed. -/
def salesOrdersCount (sales : List DailyRow) : Nat :=
  (sales.map (·.orders_count)).sum

/-! ### Order lifecycle (`order/views.py`) -/

/-- `OrderPaymentUpdateView.patch` (lines 140–147): remember `was_paid`, set
`payment_status`, force `status = COMPLETED` when the new payment status is
PAID, and call `record_daily_sales_for_order` exactly when the order was not
already PAID and is now PAID.  The `Bool` component reports whether that call
happened. -/
def patchPaymentStatus (o : OrderState) (sales : List DailyRow)
    (newStatus : PaymentStatus) : OrderState × List DailyRow × Bool :=
  let was_paid := o.payment_status = PaymentStatus.PAID
  let o1 := { o with payment_status := newStatus }
  let o2 :=
    if o1.payment_status = PaymentStatus.PAID then
      { o1 with status := OrderStatus.COMPLETED }
    else o1
  if ¬ was_paid ∧ o2.payment_status = PaymentStatus.PAID then
    (o2, record_daily_sales_for_order o2 sales, true)
  else
    (o2, sales, false)

/-- `AdminOrderFulfillmentUpdateView.patch` (lines 231–240): unconditionally
set `fulfillment_status` and save only that field; the handler never touches
the `DailySales` table, which is threaded through unchanged. -/
def patchFulfillmentStatus (o : OrderState) (sales : List DailyRow)
    (newStatus : FulfillmentStatus) : OrderState × List DailyRow :=
  ({ o with fulfillment_status := newStatus }, sales)

/-- Run a sequence of payment-status updates; the `Nat` component counts how
many of them invoked the sales aggregator. -/
def runPaymentUpdates :
    OrderState → List DailyRow → List PaymentStatus →
      OrderState × List DailyRow × Nat
  | o, sales, [] => (o, sales, 0)
  | o, sales, s :: rest =>
    let step := patchPaymentStatus o sales s
    let next := runPaymentUpdates step.1 step.2.1 rest
    (next.1, next.2.1, (if step.2.2 then 1 else 0) + next.2.2)

/-- Independent count of payment-confirmation edges in a status sequence:
positions where the previous status is not PAID and the new one is PAID. -/
def paidEdges : PaymentStatus → List PaymentStatus → Nat
  | _, [] => 0
  | prev, s :: rest =>
    (if prev ≠ PaymentStatus.PAID ∧ s = PaymentStatus.PAID then 1 else 0) +
      paidEdges s rest

/-- An interleavable lifecycle operation: either handler of `order/views.py`. -/
inductive LifecycleOp where
  | setPayment (s : PaymentStatus)
  | setFulfillment (f : FulfillmentStatus)
deriving DecidableEq, Repr

/-- Run an arbitrary interleaving of payment and fulfillment updates. -/
def runLifecycle :
    OrderState → List DailyRow → List LifecycleOp → OrderState × List DailyRow
  | o, sales, [] => (o, sales)
  | o, sales, .setPayment s :: rest =>
    let step := patchPaymentStatus o sales s
    runLifecycle step.1 step.2.1 rest
  | o, sales, .setFulfillment f :: rest =>
    let step := patchFulfillmentStatus o sales f
    runLifecycle step.1 step.2 rest

/-! ### Dashboard reporter (`order/views.py :: AdminDashboardOverviewView.get`) -/

/-- The projection of an `Order` row the dashboard reads. -/
structure OrderRow where
  user_id : Nat
  amount_toman : Nat
  payment_status : PaymentStatus
deriving DecidableEq, Repr

/-- `Order.objects.filter(payment_status=PAID)`. -/
def paidOrders (orders : List OrderRow) : List OrderRow :=
  orders.filter (fun o => o.payment_status == PaymentStatus.PAID)

/-- `Coalesce(Sum("amount_toman"), 0)` over the paid orders. -/
def totalRevenueToman (orders : List OrderRow) : Nat :=
  ((paidOrders orders).map (·.amount_toman)).sum

/-- `Coalesce(Count("id"), 0)` over the paid orders. -/
def totalOrdersCount (orders : List OrderRow) : Nat :=
  (paidOrders orders).length

/-- `Order.objects.values("user_id").distinct().count()`. -/
def totalCustomers (orders : List OrderRow) : Nat :=
  ((orders.map (·.user_id)).dedup).length

/-- `total_orders / total_customers if total_customers else 0`, as an exact
rational (the Python float divides two machine integers). -/
def conversionRate (orders : List OrderRow) : ℚ :=
  if totalCustomers orders = 0 then 0
  else (totalOrdersCount orders : ℚ) / (totalCustomers orders : ℚ)

/-- Python's `round` at integer precision: round half to even. -/
def roundHalfEven (q : ℚ) : ℤ :=
  if q - Rat.floor q < 1 / 2 then Rat.floor q
  else if q - Rat.floor q > 1 / 2 then Rat.floor q + 1
  else if Even (Rat.floor q) then Rat.floor q
  else Rat.floor q + 1

/-- `round(conversion_rate, 4)`. -/
def round4 (q : ℚ) : ℚ :=
  (roundHalfEven (q * 10000) : ℚ) / 10000

/-- The scalar part of the dashboard payload. -/
structure OverviewReport where
  totalRevenueOut : Nat
  totalOrdersOut : Nat
  totalCustomersOut : Nat
  conversionRateOut : ℚ
deriving DecidableEq, Repr

/-- The payload assembled by `AdminDashboardOverviewView.get` (scalar fields). -/
def dashboardOverview (orders : List OrderRow) : OverviewReport :=
  { totalRevenueOut := totalRevenueToman orders
    totalOrdersOut := totalOrdersCount orders
    totalCustomersOut := totalCustomers orders
    conversionRateOut := round4 (conversionRate orders) }

/-- Sum of the quantities the decrement loop subtracts from product `pid`:
quantities of the lines whose snapshot product has that id and tracks finite
stock. -/
def totalQty (pid : Nat) : List LineItem → Int
  | [] => 0
  | li :: rest =>
    (if li.product.pid = pid ∧ li.product.stock_quantity.isSome = true then
        (li.quantity : Int)
      else 0) + totalQty pid rest

/-- What the validation loop guarantees for each accepted line, relative to
its cart item. -/
def lineRel (by_id : Nat → Option Product) (item : CartItem) (li : LineItem) : Prop :=
  by_id item.productId = some li.product ∧
  li.quantity = item.quantity ∧
  li.product.in_stock = true ∧
  stockTooLow li.product item.quantity = false ∧
  li.unit_price_toman = li.product.price_toman ∧
  li.line_total_toman = li.product.price_toman * item.quantity

/-- The invariant claimed for the status pair, in its tenable direction:
whenever the payment status is PAID the order status is COMPLETED. -/
def paymentInvariant (o : OrderState) : Prop :=
  o.payment_status = PaymentStatus.PAID → o.status = OrderStatus.COMPLETED

/-! ### Concrete inputs used by witnesses and counterexamples -/

/-- A freshly checked-out order, exactly as `create_order_from_checkout`
persists it. -/
def exOrder : OrderState :=
  { order_number := "A1B2", user_id := 1, amount_toman := 100
    status := OrderStatus.REQUIRES_PAYMENT
    payment_status := PaymentStatus.UNPAID
    fulfillment_status := FulfillmentStatus.UNTRACKED
    created_date := 7 }

/-- A catalog row used in checkout counterexamples: one unit of stock. -/
def cexProduct : Product :=
  { pid := 1, title := "Gauze", price_toman := 10, in_stock := true
    stock_quantity := some 1 }

def cexCatalog : List Product := [cexProduct]

/-- A cart that lists the same product on two lines, one unit each. -/
def cexItems : List CartItem :=
  [{ productId := 1, quantity := 1 }, { productId := 1, quantity := 1 }]

def cexResult : Except CheckoutError CheckoutResult :=
  create_order_from_checkout cexCatalog 1 "B7" 7 "p" "n" "c" "a" "z" 20 cexItems

/-- Final tracked stock of product `pid` after a checkout: `none` when the
checkout failed (nothing persisted) or the product does not exist. -/
def finalStock (res : Except CheckoutError CheckoutResult) (pid : Nat) :
    Option (Option Int) :=
  match res with
  | .error _ => none
  | .ok r => (findProduct r.catalog pid).map (·.stock_quantity)

/-- Witness catalog: one product, price 50, three units of stock. -/
def wProduct : Product :=
  { pid := 2, title := "Mask", price_toman := 50, in_stock := true
    stock_quantity := some 3 }

def wCatalog : List Product := [wProduct]

/-- Witness cart: the whole stock of `wProduct` in one line. -/
def wItems : List CartItem := [{ productId := 2, quantity := 3 }]

/-- The rows `create_order_from_checkout wCatalog … 150 wItems` persists. -/
def wResultR : CheckoutResult :=
  { order :=
      { order_number := "C3", user_id := 1, amount_toman := 150
        status := OrderStatus.REQUIRES_PAYMENT
        payment_status := PaymentStatus.UNPAID
        fulfillment_status := FulfillmentStatus.UNTRACKED
        created_date := 7 }
    checkout :=
      { phone := "p", national_id := "n", city := "c", address := "a"
        postal_code := "z", client_total_toman := 150 }
    items := [mkLineItem wProduct 3]
    catalog := [{ pid := 2, title := "Mask", price_toman := 50, in_stock := true
                  stock_quantity := some 0 }] }

/-- The spec's dashboard scenario: three paid orders of amounts 100, 200, 300
held by two distinct customers. -/
def c8orders : List OrderRow :=
  [{ user_id := 1, amount_toman := 100, payment_status := PaymentStatus.PAID },
   { user_id := 1, amount_toman := 200, payment_status := PaymentStatus.PAID },
   { user_id := 2, amount_toman := 300, payment_status := PaymentStatus.PAID }]

/-! ### Helper lemmas about the payment handler -/

theorem patchPayment_fst (o : OrderState) (sales : List DailyRow) (s : PaymentStatus) :
    (patchPaymentStatus o sales s).1 =
      if s = PaymentStatus.PAID then
        { o with payment_status := s, status := OrderStatus.COMPLETED }
      else { o with payment_status := s } := by
  unfold patchPaymentStatus
  by_cases hs : s = PaymentStatus.PAID <;>
    simp [hs, apply_ite (f := Prod.fst)]

theorem patchPayment_fst_payment (o : OrderState) (sales : List DailyRow) (s : PaymentStatus) :
    ((patchPaymentStatus o sales s).1).payment_status = s := by
  rw [patchPayment_fst]
  by_cases hs : s = PaymentStatus.PAID <;> simp [hs]

theorem patchPayment_fired (o : OrderState) (sales : List DailyRow) (s : PaymentStatus) :
    (patchPaymentStatus o sales s).2.2 =
      decide (o.payment_status ≠ PaymentStatus.PAID ∧ s = PaymentStatus.PAID) := by
  unfold patchPaymentStatus
  by_cases hp : o.payment_status = PaymentStatus.PAID <;>
    by_cases hs : s = PaymentStatus.PAID <;>
      simp [hp, hs]

theorem patchPayment_sales (o : OrderState) (sales : List DailyRow) (s : PaymentStatus) :
    (patchPaymentStatus o sales s).2.1 =
      if o.payment_status ≠ PaymentStatus.PAID ∧ s = PaymentStatus.PAID then
        record_daily_sales_for_order (patchPaymentStatus o sales s).1 sales
      else sales := by
  conv_lhs => unfold patchPaymentStatus
  by_cases hp : o.payment_status = PaymentStatus.PAID <;>
    by_cases hs : s = PaymentStatus.PAID <;>
      simp [hp, hs, patchPayment_fst]
/-! ### Aggregator lemmas -/

theorem record_of_absent (o : OrderState) (sales : List DailyRow)
    (h : findRow sales o.created_date = none) :
    record_daily_sales_for_order o sales =
      sales ++ [{ date := o.created_date, total_toman := o.amount_toman, orders_count := 1 }] := by
  have h' : sales.find? (fun r => r.date == o.created_date) = none := h
  have hany : sales.any (fun r => r.date == o.created_date) = false := by
    rw [Bool.eq_false_iff]
    intro hc
    rcases List.any_eq_true.mp hc with ⟨r, hr, hb⟩
    exact absurd (List.find?_eq_none.mp h' r hr) (by simp [hb])
  unfold record_daily_sales_for_order
  rw [hany]
  simp

theorem record_of_present (o : OrderState) (sales : List DailyRow) (r : DailyRow)
    (h : findRow sales o.created_date = some r) :
    findRow (record_daily_sales_for_order o sales) o.created_date =
      some { date := r.date
             total_toman := r.total_toman + o.amount_toman
             orders_count := r.orders_count + 1 } ∧
    (record_daily_sales_for_order o sales).length = sales.length := by
  have h' : sales.find? (fun x => x.date == o.created_date) = some r := h
  have hmem := List.mem_of_find?_eq_some h'
  have hpr : (r.date == o.created_date) = true := by
    have := List.find?_some h'
    simpa using this
  have hany : sales.any (fun x => x.date == o.created_date) = true :=
    List.any_eq_true.mpr ⟨r, hmem, hpr⟩
  unfold record_daily_sales_for_order
  rw [hany]
  rw [if_pos rfl]
  constructor
  · unfold findRow
    rw [List.find?_map]
    have hcomp :
        ((fun x : DailyRow => x.date == o.created_date) ∘
          (fun x : DailyRow =>
            if x.date == o.created_date then
              { x with total_toman := x.total_toman + o.amount_toman
                       orders_count := x.orders_count + 1 }
            else x)) = fun x : DailyRow => x.date == o.created_date := by
      funext x
      by_cases hx : x.date = o.created_date <;> simp [hx]
    rw [hcomp, h']
    have hprd : r.date = o.created_date := by simpa using hpr
    simp [hprd]
  · simp

theorem record_frame (o : OrderState) (sales : List DailyRow) (d : Nat)
    (hd : d ≠ o.created_date) :
    findRow (record_daily_sales_for_order o sales) d = findRow sales d := by
  unfold record_daily_sales_for_order
  by_cases hany : sales.any (fun r => r.date == o.created_date) = true
  · rw [if_pos hany]
    unfold findRow
    rw [List.find?_map]
    have hcomp :
        ((fun x : DailyRow => x.date == d) ∘
          (fun x : DailyRow =>
            if x.date == o.created_date then
              { x with total_toman := x.total_toman + o.amount_toman
                       orders_count := x.orders_count + 1 }
            else x)) = fun x : DailyRow => x.date == d := by
      funext x
      by_cases hx : x.date = o.created_date <;> simp [hx]
    rw [hcomp]
    cases hfind : sales.find? (fun x => x.date == d) with
    | none => simp
    | some r =>
      have hrd : r.date = d := by
        have := List.find?_some hfind
        simpa using this
      have hne : ¬ (r.date = o.created_date) := by
        rw [hrd]
        exact hd
      simp [hne]
  · rw [if_neg hany]
    unfold findRow
    rw [List.find?_append]
    have hsingle : List.find? (fun r : DailyRow => r.date == d)
        ([{ date := o.created_date, total_toman := o.amount_toman, orders_count := 1 }] : List DailyRow) = none := by
      rw [List.find?_eq_none]
      intro x hx
      simp at hx
      subst hx
      simp
      exact fun hcontra => hd hcontra.symm
    rw [hsingle]
    cases sales.find? (fun r => r.date == d) <;> simp [Option.or]
theorem map_record_id (d : Nat) (o : OrderState) (rest : List DailyRow)
    (hnot : d ∉ rest.map (·.date)) :
    rest.map (fun r =>
      if r.date == d then
        { r with total_toman := r.total_toman + o.amount_toman
                 orders_count := r.orders_count + 1 }
      else r) = rest := by
  induction rest with
  | nil => rfl
  | cons r rest ih =>
    simp only [List.map_cons, List.mem_cons, List.map] at hnot ⊢
    have h1 : ¬ (r.date = d) := fun hc => hnot (by simp [hc])
    have h2 : d ∉ rest.map (·.date) := fun hc => hnot (by simp [hc])
    rw [ih h2]
    simp [h1]

theorem salesOrdersCount_record (o : OrderState) (sales : List DailyRow)
    (hd : (sales.map (·.date)).Nodup) :
    salesOrdersCount (record_daily_sales_for_order o sales) =
      salesOrdersCount sales + 1 := by
  induction sales with
  | nil => rfl
  | cons r rest ih =>
    rw [List.map_cons, List.nodup_cons] at hd
    obtain ⟨hnotin, hrest⟩ := hd
    unfold record_daily_sales_for_order
    by_cases hr : r.date = o.created_date
    · have hany : ((r :: rest).any fun x => x.date == o.created_date) = true := by
        simp [hr]
      rw [if_pos hany]
      rw [List.map_cons]
      have hnot : o.created_date ∉ rest.map (·.date) := by
        rw [← hr]
        exact hnotin
      rw [map_record_id o.created_date o rest hnot]
      simp [salesOrdersCount, hr]
      omega
    · by_cases hany2 : (rest.any fun x => x.date == o.created_date) = true
      · have hany : ((r :: rest).any fun x => x.date == o.created_date) = true := by
          simp [List.any_cons, hany2]
      -- record on r :: rest maps over the whole list; r is unchanged
        rw [if_pos hany]
        rw [List.map_cons]
        have hrr : (if r.date == o.created_date then
            { r with total_toman := r.total_toman + o.amount_toman
                     orders_count := r.orders_count + 1 }
          else r) = r := by
          simp [hr]
        rw [hrr]
        have hrec : record_daily_sales_for_order o rest =
            rest.map (fun x =>
              if x.date == o.created_date then
                { x with total_toman := x.total_toman + o.amount_toman
                         orders_count := x.orders_count + 1 }
              else x) := by
          unfold record_daily_sales_for_order
          rw [if_pos hany2]
        have := ih hrest
        rw [hrec] at this
        simp only [salesOrdersCount, List.map_cons, List.sum_cons] at this ⊢
        omega
      · have hany : ¬ ((r :: rest).any fun x => x.date == o.created_date) = true := by
          simp [List.any_cons] at hany2 ⊢
          exact ⟨fun hc => hr hc, hany2⟩
        rw [if_neg hany]
        simp [salesOrdersCount]
        omega

/-- C1: `record_daily_sales_for_order` upserts the row for the order's
calendar date: if no row for that date exists it appends one with
`total_toman = amount_toman` and `orders_count = 1`; if a row exists, that
row's total is incremented by the amount and its count by one (no row added),
and rows of every other date are untouched. -/
theorem recordSale_upserts_daily_row (o : OrderState) (sales : List DailyRow) :
    (findRow sales o.created_date = none →
      record_daily_sales_for_order o sales =
        sales ++ [{ date := o.created_date
                    total_toman := o.amount_toman
                    orders_count := 1 }]) ∧
    (∀ r, findRow sales o.created_date = some r →
      findRow (record_daily_sales_for_order o sales) o.created_date =
        some { date := r.date
               total_toman := r.total_toman + o.amount_toman
               orders_count := r.orders_count + 1 } ∧
      (record_daily_sales_for_order o sales).length = sales.length) ∧
    (∀ d, d ≠ o.created_date →
      findRow (record_daily_sales_for_order o sales) d = findRow sales d) :=
  ⟨fun h => record_of_absent o sales h,
   fun r h => record_of_present o sales r h,
   fun d h => record_frame o sales d h⟩

theorem recordSale_upserts_daily_row_witness :
    (record_daily_sales_for_order exOrder [] =
      [{ date := 7, total_toman := 100, orders_count := 1 }]) ∧
    (findRow (record_daily_sales_for_order exOrder
        [{ date := 7, total_toman := 5, orders_count := 2 }]) 7 =
      some { date := 7, total_toman := 105, orders_count := 3 }) :=
  ⟨(recordSale_upserts_daily_row exOrder []).1 (by decide),
   ((recordSale_upserts_daily_row exOrder
      [{ date := 7, total_toman := 5, orders_count := 2 }]).2.1
      { date := 7, total_toman := 5, orders_count := 2 } (by decide)).1⟩
/-! ### Lifecycle lemmas and claims -/

theorem patch_preserves_invariant (o : OrderState) (sales : List DailyRow)
    (s : PaymentStatus) : paymentInvariant ((patchPaymentStatus o sales s).1) := by
  rw [patchPayment_fst]
  by_cases hs : s = PaymentStatus.PAID <;> simp [paymentInvariant, hs]

theorem runLifecycle_preserves_invariant (ops : List LifecycleOp) :
    ∀ o sales, paymentInvariant o → paymentInvariant (runLifecycle o sales ops).1 := by
  induction ops with
  | nil => intro o sales h; exact h
  | cons op rest ih =>
    intro o sales h
    cases op with
    | setPayment s =>
      simp only [runLifecycle]
      exact ih _ _ (patch_preserves_invariant o sales s)
    | setFulfillment f =>
      simp only [runLifecycle]
      apply ih
      simpa [paymentInvariant, patchFulfillmentStatus] using h

/-- C2 counterexample: on a fresh order, setting payment status PAID and then
FAILED leaves `status = COMPLETED` while `payment_status = FAILED`, so the
claimed equivalence `status = COMPLETED ↔ payment_status = PAID` is false and
the status does not leave COMPLETED. -/
theorem payment_invariant_counterexample :
    (runLifecycle exOrder [] [LifecycleOp.setPayment PaymentStatus.PAID,
        LifecycleOp.setPayment PaymentStatus.FAILED]).1.payment_status =
      PaymentStatus.FAILED ∧
    (runLifecycle exOrder [] [LifecycleOp.setPayment PaymentStatus.PAID,
        LifecycleOp.setPayment PaymentStatus.FAILED]).1.status =
      OrderStatus.COMPLETED := by
  decide

/-- C2 amended: only the forward direction of the claimed invariant holds.
After any sequence of payment and fulfillment updates from a state satisfying
`payment_status = PAID → status = COMPLETED`, that implication still holds;
and a payment update to a non-PAID value never changes `status`, so a
previously PAID (hence COMPLETED) order stays COMPLETED when its payment
status is set to FAILED. -/
theorem payment_invariant_one_direction (o : OrderState) (sales : List DailyRow) :
    (∀ ops, paymentInvariant o → paymentInvariant (runLifecycle o sales ops).1) ∧
    (∀ s, s ≠ PaymentStatus.PAID →
      ((patchPaymentStatus o sales s).1).status = o.status) := by
  constructor
  · intro ops h
    exact runLifecycle_preserves_invariant ops o sales h
  · intro s hs
    rw [patchPayment_fst]
    simp [hs]

theorem payment_invariant_one_direction_witness :
    paymentInvariant (runLifecycle exOrder []
      [LifecycleOp.setPayment PaymentStatus.PAID]).1 ∧
    ((patchPaymentStatus exOrder [] PaymentStatus.FAILED).1).status = exOrder.status :=
  ⟨(payment_invariant_one_direction exOrder []).1
      [LifecycleOp.setPayment PaymentStatus.PAID]
      (by intro h; exact absurd h (by decide)),
   (payment_invariant_one_direction exOrder []).2 PaymentStatus.FAILED (by decide)⟩

theorem run_fires_eq_paidEdges (seq : List PaymentStatus) :
    ∀ o sales, (runPaymentUpdates o sales seq).2.2 = paidEdges o.payment_status seq := by
  induction seq with
  | nil => intro o sales; rfl
  | cons s rest ih =>
    intro o sales
    simp only [runPaymentUpdates]
    rw [ih, patchPayment_fst_payment, patchPayment_fired]
    simp only [paidEdges]
    by_cases h : o.payment_status ≠ PaymentStatus.PAID ∧ s = PaymentStatus.PAID <;>
      simp [h]

/-- C3 counterexample: the payment sequence PAID, FAILED, PAID on one fresh
order triggers the sales recording twice (and double-counts the order in the
daily row), refuting "fires on the first transition to PAID and never again
for the same order". -/
theorem aggregator_refires_counterexample :
    (runPaymentUpdates exOrder []
      [PaymentStatus.PAID, PaymentStatus.FAILED, PaymentStatus.PAID]).2.2 = 2 ∧
    (runPaymentUpdates exOrder []
      [PaymentStatus.PAID, PaymentStatus.FAILED, PaymentStatus.PAID]).2.1 =
      [{ date := 7, total_toman := 200, orders_count := 2 }] := by
  decide

/-- C3 amended: the aggregator fires exactly once per payment-confirmation
edge, i.e. the number of `record_daily_sales_for_order` calls over any
sequence of payment updates equals the number of positions whose pre-update
status is not PAID and whose new status is PAID.  Consecutive repeats of PAID
fire once, but the aggregator fires again whenever the status leaves PAID and
returns to it. -/
theorem aggregator_fires_per_paid_edge (o : OrderState) (sales : List DailyRow)
    (seq : List PaymentStatus) :
    (runPaymentUpdates o sales seq).2.2 = paidEdges o.payment_status seq :=
  run_fires_eq_paidEdges seq o sales

theorem aggregator_fires_per_paid_edge_witness :
    (runPaymentUpdates exOrder [] [PaymentStatus.PAID, PaymentStatus.PAID]).2.2 =
      paidEdges exOrder.payment_status [PaymentStatus.PAID, PaymentStatus.PAID] :=
  aggregator_fires_per_paid_edge exOrder [] [PaymentStatus.PAID, PaymentStatus.PAID]

/-- C7: two consecutive PAID updates on a not-yet-PAID order record the sale
exactly once: the first call fires the aggregator and adds one to the table's
total order count, the second fires nothing and leaves the table unchanged. -/
theorem double_paid_records_once (o : OrderState) (sales : List DailyRow)
    (hp : o.payment_status ≠ PaymentStatus.PAID)
    (hd : (sales.map (·.date)).Nodup) :
    (patchPaymentStatus o sales PaymentStatus.PAID).2.2 = true ∧
    (patchPaymentStatus (patchPaymentStatus o sales PaymentStatus.PAID).1
        (patchPaymentStatus o sales PaymentStatus.PAID).2.1 PaymentStatus.PAID).2.2 = false ∧
    (patchPaymentStatus (patchPaymentStatus o sales PaymentStatus.PAID).1
        (patchPaymentStatus o sales PaymentStatus.PAID).2.1 PaymentStatus.PAID).2.1 =
      (patchPaymentStatus o sales PaymentStatus.PAID).2.1 ∧
    salesOrdersCount (patchPaymentStatus o sales PaymentStatus.PAID).2.1 =
      salesOrdersCount sales + 1 := by
  have hpay : ((patchPaymentStatus o sales PaymentStatus.PAID).1).payment_status =
      PaymentStatus.PAID := patchPayment_fst_payment o sales PaymentStatus.PAID
  refine ⟨?_, ?_, ?_, ?_⟩
  · rw [patchPayment_fired]
    simp [hp]
  · rw [patchPayment_fired]
    simp [hpay]
  · rw [patchPayment_sales]
    simp [hpay]
  · rw [patchPayment_sales]
    rw [if_pos ⟨hp, rfl⟩]
    exact salesOrdersCount_record _ _ hd

theorem double_paid_records_once_witness :
    (patchPaymentStatus exOrder [] PaymentStatus.PAID).2.2 = true ∧
    (patchPaymentStatus (patchPaymentStatus exOrder [] PaymentStatus.PAID).1
        (patchPaymentStatus exOrder [] PaymentStatus.PAID).2.1 PaymentStatus.PAID).2.2 = false ∧
    (patchPaymentStatus (patchPaymentStatus exOrder [] PaymentStatus.PAID).1
        (patchPaymentStatus exOrder [] PaymentStatus.PAID).2.1 PaymentStatus.PAID).2.1 =
      (patchPaymentStatus exOrder [] PaymentStatus.PAID).2.1 ∧
    salesOrdersCount (patchPaymentStatus exOrder [] PaymentStatus.PAID).2.1 =
      salesOrdersCount [] + 1 :=
  double_paid_records_once exOrder [] (by decide) (by decide)

/-- C9: the fulfillment handler sets `fulfillment_status` unconditionally
(any value, from any state) and changes nothing else: status, payment status,
amount, order number and the DailySales table are untouched. -/
theorem fulfillment_update_frame (o : OrderState) (sales : List DailyRow)
    (f : FulfillmentStatus) :
    (patchFulfillmentStatus o sales f).1.fulfillment_status = f ∧
    (patchFulfillmentStatus o sales f).1.status = o.status ∧
    (patchFulfillmentStatus o sales f).1.payment_status = o.payment_status ∧
    (patchFulfillmentStatus o sales f).1.amount_toman = o.amount_toman ∧
    (patchFulfillmentStatus o sales f).1.order_number = o.order_number ∧
    (patchFulfillmentStatus o sales f).2 = sales :=
  ⟨rfl, rfl, rfl, rfl, rfl, rfl⟩

theorem fulfillment_update_frame_witness :
    (patchFulfillmentStatus exOrder [] FulfillmentStatus.SHIPPED).1.fulfillment_status =
      FulfillmentStatus.SHIPPED ∧
    (patchFulfillmentStatus exOrder [] FulfillmentStatus.SHIPPED).1.status = exOrder.status ∧
    (patchFulfillmentStatus exOrder [] FulfillmentStatus.SHIPPED).1.payment_status =
      exOrder.payment_status ∧
    (patchFulfillmentStatus exOrder [] FulfillmentStatus.SHIPPED).1.amount_toman =
      exOrder.amount_toman ∧
    (patchFulfillmentStatus exOrder [] FulfillmentStatus.SHIPPED).1.order_number =
      exOrder.order_number ∧
    (patchFulfillmentStatus exOrder [] FulfillmentStatus.SHIPPED).2 = [] :=
  fulfillment_update_frame exOrder [] FulfillmentStatus.SHIPPED
/-- C8: the dashboard computes totalRevenue as the sum of amounts over PAID
orders, totalOrders as their count, totalCustomers as the number of distinct
users over all orders, and conversionRate as totalOrders / totalCustomers
(exactly 0 when there are no customers) rounded to four decimal places; on
the spec's scenario (paid amounts 100, 200, 300 over two customers) this
yields 600, 3, 2 and 1.5000. -/
theorem dashboard_overview_correct (orders : List OrderRow) :
    (totalCustomers orders = 0 → conversionRate orders = 0) ∧
    (totalCustomers orders ≠ 0 →
      conversionRate orders =
        (totalOrdersCount orders : ℚ) / (totalCustomers orders : ℚ)) ∧
    dashboardOverview c8orders =
      { totalRevenueOut := 600
        totalOrdersOut := 3
        totalCustomersOut := 2
        conversionRateOut := 3 / 2 } := by
  refine ⟨?_, ?_, ?_⟩
  · intro h
    simp [conversionRate, h]
  · intro h
    simp [conversionRate, h]
  · have h1 : totalRevenueToman c8orders = 600 := by decide
    have h2 : totalOrdersCount c8orders = 3 := by decide
    have h3 : totalCustomers c8orders = 2 := by decide
    have hcr : conversionRate c8orders = 3 / 2 := by
      rw [conversionRate, h2, h3]
      norm_num
    have hr4 : round4 ((3 : ℚ) / 2) = 3 / 2 := by
      have hq : ((3 : ℚ) / 2) * 10000 = ((15000 : ℤ) : ℚ) := by norm_num
      rw [round4, roundHalfEven, hq]
      have hfl : Rat.floor ((15000 : ℤ) : ℚ) = 15000 := by
        have hb : Rat.floor ((15000 : ℤ) : ℚ) = ⌊((15000 : ℤ) : ℚ)⌋ := rfl
        rw [hb, Int.floor_intCast]
      rw [hfl]
      norm_num
    simp [dashboardOverview, h1, h2, h3, hcr, hr4]

theorem dashboard_overview_correct_witness :
    conversionRate c8orders =
      (totalOrdersCount c8orders : ℚ) / (totalCustomers c8orders : ℚ) ∧
    dashboardOverview c8orders =
      { totalRevenueOut := 600
        totalOrdersOut := 3
        totalCustomersOut := 2
        conversionRateOut := 3 / 2 } :=
  ⟨(dashboard_overview_correct c8orders).2.1 (by decide),
   (dashboard_overview_correct c8orders).2.2⟩


/-! ### Checkout engine computation lemmas -/

theorem create_eq_err_missing (catalog : List Product) (user_id : Nat)
    (order_number : String) (today : Nat)
    (phone national_id city address postal_code : String)
    (client_total_toman : Nat) (items : List CartItem)
    (hm : ¬ ((items.map (·.productId)).filter
        (fun pid => (findProduct catalog pid).isNone) = [])) :
    create_order_from_checkout catalog user_id order_number today phone
        national_id city address postal_code client_total_toman items =
      .error (.productsNotFound ((items.map (·.productId)).filter
        (fun pid => (findProduct catalog pid).isNone))) := by
  simp only [create_order_from_checkout]
  rw [if_neg hm]

theorem create_eq_err_validate (catalog : List Product) (user_id : Nat)
    (order_number : String) (today : Nat)
    (phone national_id city address postal_code : String)
    (client_total_toman : Nat) (items : List CartItem) (e : CheckoutError)
    (hm : (items.map (·.productId)).filter
        (fun pid => (findProduct catalog pid).isNone) = [])
    (hv : validateItems (findProduct catalog) items = .error e) :
    create_order_from_checkout catalog user_id order_number today phone
        national_id city address postal_code client_total_toman items =
      .error e := by
  simp only [create_order_from_checkout]
  rw [if_pos hm, hv]

theorem create_eq_err_total (catalog : List Product) (user_id : Nat)
    (order_number : String) (today : Nat)
    (phone national_id city address postal_code : String)
    (client_total_toman : Nat) (items : List CartItem) (L : List LineItem)
    (hm : (items.map (·.productId)).filter
        (fun pid => (findProduct catalog pid).isNone) = [])
    (hv : validateItems (findProduct catalog) items = .ok L)
    (ht : client_total_toman ≠ (L.map (·.line_total_toman)).sum) :
    create_order_from_checkout catalog user_id order_number today phone
        national_id city address postal_code client_total_toman items =
      .error .totalMismatch := by
  simp only [create_order_from_checkout]
  rw [if_pos hm, hv]
  simp only []
  rw [if_pos ht]

theorem create_eq_ok (catalog : List Product) (user_id : Nat)
    (order_number : String) (today : Nat)
    (phone national_id city address postal_code : String)
    (client_total_toman : Nat) (items : List CartItem) (L : List LineItem)
    (hm : (items.map (·.productId)).filter
        (fun pid => (findProduct catalog pid).isNone) = [])
    (hv : validateItems (findProduct catalog) items = .ok L)
    (ht : client_total_toman = (L.map (·.line_total_toman)).sum) :
    create_order_from_checkout catalog user_id order_number today phone
        national_id city address postal_code client_total_toman items =
      .ok
        { order :=
            { order_number := order_number
              user_id := user_id
              amount_toman := (L.map (·.line_total_toman)).sum
              status := OrderStatus.REQUIRES_PAYMENT
              payment_status := PaymentStatus.UNPAID
              fulfillment_status := FulfillmentStatus.UNTRACKED
              created_date := today }
          checkout :=
            { phone := phone
              national_id := national_id
              city := city
              address := address
              postal_code := postal_code
              client_total_toman := client_total_toman }
          items := L
          catalog := decrementAll catalog L } := by
  simp only [create_order_from_checkout]
  rw [if_pos hm, hv]
  simp only []
  rw [if_neg (not_not_intro ht)]

theorem create_ok_parts (catalog : List Product) (user_id : Nat)
    (order_number : String) (today : Nat)
    (phone national_id city address postal_code : String)
    (client_total_toman : Nat) (items : List CartItem) (r : CheckoutResult)
    (hok : create_order_from_checkout catalog user_id order_number today phone
        national_id city address postal_code client_total_toman items = .ok r) :
    ∃ L, validateItems (findProduct catalog) items = .ok L ∧
      client_total_toman = (L.map (·.line_total_toman)).sum ∧
      r.catalog = decrementAll catalog L ∧
      r.order.amount_toman = (L.map (·.line_total_toman)).sum ∧
      r.checkout.client_total_toman = client_total_toman ∧
      r.items = L := by
  by_cases hm : (items.map (·.productId)).filter
      (fun pid => (findProduct catalog pid).isNone) = []
  · cases hv : validateItems (findProduct catalog) items with
    | error e =>
      rw [create_eq_err_validate catalog user_id order_number today phone
        national_id city address postal_code client_total_toman items e hm hv] at hok
      exact absurd hok (by simp)
    | ok L =>
      by_cases ht : client_total_toman = (L.map (·.line_total_toman)).sum
      · rw [create_eq_ok catalog user_id order_number today phone national_id
          city address postal_code client_total_toman items L hm hv ht] at hok
        injection hok with h
        subst h
        exact ⟨L, rfl, ht, rfl, rfl, rfl, rfl⟩
      · rw [create_eq_err_total catalog user_id order_number today phone
          national_id city address postal_code client_total_toman items L hm hv ht] at hok
        exact absurd hok (by simp)
  · rw [create_eq_err_missing catalog user_id order_number today phone
      national_id city address postal_code client_total_toman items hm] at hok
    exact absurd hok (by simp)


/-! ### Stock decrement lemmas -/

theorem decBy_zero (p : Product) : decBy 0 p = p := by
  cases p with
  | mk pid title price_toman in_stock sq =>
    cases sq <;> simp [decBy]

theorem decBy_decBy (a b : Int) (p : Product) :
    decBy a (decBy b p) = decBy (b + a) p := by
  unfold decBy
  cases h : p.stock_quantity <;> simp [h, sub_sub]

theorem decBy_pid (n : Int) (p : Product) : (decBy n p).pid = p.pid := rfl

theorem totalQty_head (li : LineItem) (rest : List LineItem) (pid : Nat) :
    totalQty pid (li :: rest) =
      (if li.product.pid = pid ∧ li.product.stock_quantity.isSome = true then
        (li.quantity : Int) else 0) + totalQty pid rest := rfl

theorem decrementAll_eq_map (L : List LineItem) :
    ∀ catalog : List Product,
      decrementAll catalog L = catalog.map (fun p => decBy (totalQty p.pid L) p) := by
  induction L with
  | nil =>
    intro catalog
    have hfun : (fun p : Product => decBy (totalQty p.pid []) p) = fun p => p := by
      funext p
      show decBy 0 p = p
      exact decBy_zero p
    rw [hfun]
    simp [decrementAll]
  | cons li rest ih =>
    intro catalog
    show decrementAll
        (if li.product.stock_quantity.isSome then
          decrementStock catalog li.product.pid li.quantity
        else catalog) rest = _
    by_cases hs : li.product.stock_quantity.isSome = true
    · rw [if_pos hs]
      rw [ih]
      unfold decrementStock
      rw [List.map_map]
      have hfun : ((fun p : Product => decBy (totalQty p.pid rest) p) ∘
          (fun p : Product =>
            if p.pid == li.product.pid then decBy (li.quantity : Int) p else p)) =
          fun p : Product => decBy (totalQty p.pid (li :: rest)) p := by
        funext p
        by_cases hp : p.pid = li.product.pid
        · have hbeq : (p.pid == li.product.pid) = true := by simp [hp]
          simp only [Function.comp, hbeq, if_true]
          rw [decBy_pid, decBy_decBy, hp, totalQty_head]
          rw [if_pos ⟨rfl, hs⟩]
        · have hbeq : (p.pid == li.product.pid) = false := by simp [hp]
          simp only [Function.comp, hbeq, Bool.false_eq_true, if_false]
          rw [totalQty_head, if_neg (fun hc => hp (hc.1.symm)), zero_add]
      rw [hfun]
    · rw [if_neg hs]
      rw [ih]
      have hfun : (fun p : Product => decBy (totalQty p.pid rest) p) =
          fun p : Product => decBy (totalQty p.pid (li :: rest)) p := by
        funext p
        rw [totalQty_head, if_neg (fun hc => hs hc.2), zero_add]
      rw [hfun]

theorem findProduct_pid (catalog : List Product) (pid : Nat) (p : Product)
    (h : findProduct catalog pid = some p) : p.pid = pid := by
  have := List.find?_some h
  simpa using this

theorem findProduct_mem (catalog : List Product) (pid : Nat) (p : Product)
    (h : findProduct catalog pid = some p) : p ∈ catalog :=
  List.mem_of_find?_eq_some h

theorem findProduct_decrementAll (catalog : List Product) (L : List LineItem)
    (pid : Nat) :
    findProduct (decrementAll catalog L) pid =
      (findProduct catalog pid).map (fun p => decBy (totalQty pid L) p) := by
  rw [decrementAll_eq_map]
  unfold findProduct
  rw [List.find?_map]
  have hcomp : ((fun p : Product => p.pid == pid) ∘
      (fun p : Product => decBy (totalQty p.pid L) p)) =
      fun p : Product => p.pid == pid := by
    funext p
    rfl
  rw [hcomp]
  cases hfind : catalog.find? (fun p => p.pid == pid) with
  | none => rfl
  | some p =>
    have hp : p.pid = pid := by
      have := List.find?_some hfind
      simpa using this
    simp [hp]

theorem totalQty_zero (pid : Nat) (L : List LineItem)
    (h : pid ∉ L.map (·.product.pid)) : totalQty pid L = 0 := by
  induction L with
  | nil => rfl
  | cons li rest ih =>
    simp only [List.map_cons, List.mem_cons] at h
    rw [totalQty_head]
    rw [if_neg (fun hc => h (Or.inl hc.1.symm))]
    rw [ih (fun hc => h (Or.inr hc)), add_zero]

theorem totalQty_count_one (pid : Nat) (L : List LineItem) (li : LineItem)
    (hcount : (L.map (·.product.pid)).count pid = 1)
    (hmem : li ∈ L) (hpid : li.product.pid = pid)
    (hsome : li.product.stock_quantity.isSome = true) :
    totalQty pid L = li.quantity := by
  induction L with
  | nil => cases hmem
  | cons hd rest ih =>
    rw [List.map_cons] at hcount
    by_cases hhd : hd.product.pid = pid
    · have hz : (rest.map (·.product.pid)).count pid = 0 := by
        rw [List.count_cons, if_pos (by simp [hhd])] at hcount
        omega
      have hli : li = hd := by
        rcases List.mem_cons.mp hmem with h | h
        · exact h
        · exfalso
          have : pid ∈ rest.map (·.product.pid) :=
            List.mem_map.mpr ⟨li, h, hpid⟩
          rw [List.count_eq_zero] at hz
          exact hz this
      subst hli
      rw [totalQty_head, if_pos ⟨hpid, hsome⟩]
      rw [totalQty_zero pid rest (by
        intro hc
        rw [List.count_eq_zero] at hz
        exact hz hc), add_zero]
    · have hmem2 : li ∈ rest := by
        rcases List.mem_cons.mp hmem with h | h
        · exact absurd (h ▸ hpid) hhd
        · exact h
      have hcount2 : (rest.map (·.product.pid)).count pid = 1 := by
        rw [List.count_cons, if_neg (by simp [hhd])] at hcount
        omega
      rw [totalQty_head, if_neg (fun hc => hhd hc.1)]
      rw [ih hcount2 hmem2, zero_add]

/-! ### Validation loop lemmas -/

theorem validateItems_ok_forall2 (by_id : Nat → Option Product) :
    ∀ items L, validateItems by_id items = .ok L →
      List.Forall₂ (lineRel by_id) items L := by
  intro items
  induction items with
  | nil =>
    intro L h
    simp only [validateItems] at h
    injection h with h2
    subst h2
    exact List.Forall₂.nil
  | cons item rest ih =>
    intro L h
    simp only [validateItems] at h
    cases hb : by_id item.productId with
    | none => rw [hb] at h; exact absurd h (by simp)
    | some product =>
      rw [hb] at h
      dsimp only [] at h
      by_cases hin : product.in_stock = false
      · rw [if_pos hin] at h
        exact absurd h (by simp)
      · rw [if_neg hin] at h
        by_cases hst : stockTooLow product item.quantity = true
        · rw [if_pos hst] at h
          exact absurd h (by simp)
        · rw [if_neg hst] at h
          cases hv : validateItems by_id rest with
          | error e =>
            rw [hv] at h
            exact absurd h (by simp [Except.map])
          | ok L2 =>
            rw [hv] at h
            simp only [Except.map] at h
            injection h with h2
            subst h2
            refine List.Forall₂.cons ?_ (ih L2 hv)
            refine ⟨hb, rfl, ?_, ?_, rfl, rfl⟩
            · show product.in_stock = true
              revert hin
              cases product.in_stock <;> simp
            · show stockTooLow product item.quantity = false
              revert hst
              cases stockTooLow product item.quantity <;> simp
  
theorem forall2_exists_right {α β : Type} {R : α → β → Prop} :
    ∀ {as : List α} {bs : List β} {a : α},
      List.Forall₂ R as bs → a ∈ as → ∃ b ∈ bs, R a b := by
  intro as bs a h
  induction h with
  | nil => intro hc; cases hc
  | cons hr ht ih =>
    intro hmem
    rcases List.mem_cons.mp hmem with h1 | h1
    · subst h1
      exact ⟨_, List.mem_cons_self _ _, hr⟩
    · rcases ih h1 with ⟨b, hb, hrb⟩
      exact ⟨b, List.mem_cons_of_mem _ hb, hrb⟩

theorem forall2_pids (catalog : List Product) :
    ∀ {items : List CartItem} {L : List LineItem},
      List.Forall₂ (lineRel (findProduct catalog)) items L →
      L.map (·.product.pid) = items.map (·.productId) := by
  intro items L h
  induction h with
  | nil => rfl
  | cons hr ht ih =>
    rw [List.map_cons, List.map_cons, ih, findProduct_pid _ _ _ hr.1]

theorem validateItems_found (catalog : List Product) (items : List CartItem)
    (L : List LineItem)
    (h : validateItems (findProduct catalog) items = .ok L) :
    ∀ item ∈ items, (findProduct catalog item.productId).isSome = true := by
  intro item hmem
  rcases forall2_exists_right (validateItems_ok_forall2 (findProduct catalog) items L h) hmem
    with ⟨li, _, hrel⟩
  rw [hrel.1]
  rfl

theorem missing_nil (catalog : List Product) (items : List CartItem)
    (hf : ∀ item ∈ items, (findProduct catalog item.productId).isSome = true) :
    (items.map (·.productId)).filter
      (fun pid => (findProduct catalog pid).isNone) = [] := by
  rw [List.filter_eq_nil_iff]
  intro pid hpid
  rcases List.mem_map.mp hpid with ⟨item, hmem, rfl⟩
  have := hf item hmem
  cases h : findProduct catalog item.productId with
  | none => rw [h] at this; cases this
  | some p => simp [h]

theorem forall2_exists_left {α β : Type} {R : α → β → Prop} :
    ∀ {as : List α} {bs : List β} {b : β},
      List.Forall₂ R as bs → b ∈ bs → ∃ a ∈ as, R a b := by
  intro as bs b h
  induction h with
  | nil => intro hc; cases hc
  | cons hr ht ih =>
    intro hmem
    rcases List.mem_cons.mp hmem with h1 | h1
    · subst h1
      exact ⟨_, List.mem_cons_self _ _, hr⟩
    · rcases ih h1 with ⟨a, ha, hra⟩
      exact ⟨a, List.mem_cons_of_mem _ ha, hra⟩

theorem stockTooLow_false_le (p : Product) (q : Nat) (s : Int)
    (hs : p.stock_quantity = some s) (h : stockTooLow p q = false) :
    (q : Int) ≤ s := by
  unfold stockTooLow at h
  rw [hs] at h
  simp [Option.any] at h
  omega

theorem validateItems_insufficient (by_id : Nat → Option Product) :
    ∀ items : List CartItem,
      (∀ item ∈ items, ∃ p, by_id item.productId = some p ∧ p.in_stock = true) →
      (∃ item ∈ items, ∃ p, by_id item.productId = some p ∧
        stockTooLow p item.quantity = true) →
      ∃ t, validateItems by_id items = .error (.insufficientStock t) := by
  intro items
  induction items with
  | nil =>
    intro _ h2
    rcases h2 with ⟨item, hmem, _⟩
    cases hmem
  | cons item rest ih =>
    intro h1 h2
    rcases h1 item (List.mem_cons_self _ _) with ⟨p, hp, hin⟩
    simp only [validateItems]
    rw [hp]
    dsimp only
    rw [if_neg (by rw [hin]; simp)]
    by_cases hst : stockTooLow p item.quantity = true
    · rw [if_pos hst]
      exact ⟨p.title, rfl⟩
    · rw [if_neg hst]
      have hrest : ∃ item2 ∈ rest, ∃ p2, by_id item2.productId = some p2 ∧
          stockTooLow p2 item2.quantity = true := by
        rcases h2 with ⟨item2, hmem2, p2, hp2, hst2⟩
        rcases List.mem_cons.mp hmem2 with h3 | h3
        · subst h3
          rw [hp] at hp2
          injection hp2 with e
          subst e
          exact absurd hst2 hst
        · exact ⟨item2, h3, p2, hp2, hst2⟩
      rcases ih (fun it hit => h1 it (List.mem_cons_of_mem _ hit)) hrest with ⟨t, ht⟩
      rw [ht]
      exact ⟨t, rfl⟩

/-! ### Checkout claims -/

/-- C4 counterexample: a cart listing the in-stock product (one unit of
stock) on two one-unit lines passes the per-line validation, the checkout
succeeds, and the final stock is -1 (negative).  `finalStock` returns `none`
on a failed checkout, so `some (some (-1))` also records that the order was
created. -/
theorem duplicate_line_negative_stock_counterexample :
    cexResult.toOption.isSome = true ∧
    finalStock cexResult 1 = some (some (-1)) := by
  decide

/-- C4 corrected: when every productId appears at most once in the submitted
cart (catalog ids unique, stocks initially nonnegative), a successful
`create_order_from_checkout` leaves every tracked stock quantity nonnegative.
The unqualified claim fails because each line is validated against the
original stock while every line decrements it. -/
theorem stock_nonneg_of_distinct_lines
    (catalog : List Product) (user_id : Nat) (order_number : String) (today : Nat)
    (phone national_id city address postal_code : String)
    (client_total_toman : Nat) (items : List CartItem) (r : CheckoutResult)
    (hok : create_order_from_checkout catalog user_id order_number today phone
        national_id city address postal_code client_total_toman items = .ok r)
    (hitems : (items.map (·.productId)).Nodup)
    (hcat : (catalog.map (·.pid)).Nodup)
    (hinit : ∀ p ∈ catalog, ∀ s : Int, p.stock_quantity = some s → 0 ≤ s) :
    ∀ p ∈ r.catalog, ∀ s : Int, p.stock_quantity = some s → 0 ≤ s := by
  obtain ⟨L, hval, htot, hcatEq, _⟩ := create_ok_parts catalog user_id
    order_number today phone national_id city address postal_code
    client_total_toman items r hok
  intro p' hp' s hs
  rw [hcatEq, decrementAll_eq_map L catalog] at hp'
  rcases List.mem_map.mp hp' with ⟨p, hpmem, rfl⟩
  have hf2 := validateItems_ok_forall2 (findProduct catalog) items L hval
  have hpids := forall2_pids catalog hf2
  cases hs0 : p.stock_quantity with
  | none =>
    simp only [decBy, hs0, Option.map_none'] at hs
    cases hs
  | some s0 =>
    have hs0nn : 0 ≤ s0 := hinit p hpmem s0 hs0
    simp only [decBy, hs0, Option.map_some'] at hs
    injection hs with hs
    have hbound : totalQty p.pid L ≤ s0 := by
      by_cases hmemL : p.pid ∈ L.map (·.product.pid)
      · rcases List.mem_map.mp hmemL with ⟨li, hliL, hlipid⟩
        rcases forall2_exists_left hf2 hliL with ⟨item, hitem, hrel⟩
        have hlimem : li.product ∈ catalog := findProduct_mem _ _ _ hrel.1
        have hlip : li.product = p :=
          List.inj_on_of_nodup_map hcat hlimem hpmem hlipid
        have hcnt : (L.map (·.product.pid)).count p.pid = 1 := by
          have hle : ((items.map (·.productId)).count p.pid) ≤ 1 :=
            List.nodup_iff_count_le_one.mp hitems p.pid
          have hpos : 0 < (L.map (·.product.pid)).count p.pid :=
            List.count_pos_iff.mpr hmemL
          rw [hpids] at hpos ⊢
          omega
        have hsomeli : li.product.stock_quantity.isSome = true := by
          rw [hlip, hs0]
          rfl
        have hq := totalQty_count_one p.pid L li hcnt hliL hlipid hsomeli
        rw [hq, hrel.2.1]
        have hle2 : ((item.quantity : Int)) ≤ s0 := by
          apply stockTooLow_false_le li.product item.quantity s0 _ hrel.2.2.2.1
          rw [hlip, hs0]
        exact hle2
      · rw [totalQty_zero p.pid L hmemL]
        exact hs0nn
    omega

theorem stock_nonneg_of_distinct_lines_witness : (0 : Int) ≤ 0 :=
  stock_nonneg_of_distinct_lines wCatalog 1 "C3" 7 "p" "n" "c" "a" "z" 150
    wItems wResultR (by rfl) (by decide) (by decide)
    (by
      intro p hp s hs
      rw [wCatalog, List.mem_singleton] at hp
      subst hp
      injection hs with h
      omega)
    { pid := 2, title := "Mask", price_toman := 50, in_stock := true
      stock_quantity := some 0 }
    (by decide) 0 (by rfl)

/-- C5: a cart that resolves and passes the stock checks but declares a
client total different from the server-computed total always fails with the
TotalMismatch error; the error result carries no order, checkout, items or
catalog change (the surrounding transaction aborts), so nothing is
persisted. -/
theorem total_mismatch_always_fails
    (catalog : List Product) (user_id : Nat) (order_number : String) (today : Nat)
    (phone national_id city address postal_code : String)
    (client_total_toman : Nat) (items : List CartItem) (L : List LineItem)
    (hval : validateItems (findProduct catalog) items = .ok L)
    (hmm : client_total_toman ≠ (L.map (·.line_total_toman)).sum) :
    create_order_from_checkout catalog user_id order_number today phone
        national_id city address postal_code client_total_toman items =
      .error CheckoutError.totalMismatch :=
  create_eq_err_total catalog user_id order_number today phone national_id
    city address postal_code client_total_toman items L
    (missing_nil catalog items (validateItems_found catalog items L hval))
    hval hmm

theorem total_mismatch_always_fails_witness :
    create_order_from_checkout wCatalog 1 "C3" 7 "p" "n" "c" "a" "z" 140 wItems =
      .error CheckoutError.totalMismatch :=
  total_mismatch_always_fails wCatalog 1 "C3" 7 "p" "n" "c" "a" "z" 140 wItems
    [mkLineItem wProduct 3] (by rfl) (by decide)

/-- C6: for a product with finite stock (all products resolving and in
stock), a line requesting more than the available stock makes the checkout
fail with InsufficientStock; a cart whose only line for the product requests
exactly the stock (with the other checks passing) succeeds and leaves that
product's stock at exactly 0. -/
theorem insufficient_and_exact_stock
    (catalog : List Product) (user_id : Nat) (order_number : String) (today : Nat)
    (phone national_id city address postal_code : String)
    (client_total_toman : Nat) (items : List CartItem) :
    ((∀ item ∈ items, ∃ p, findProduct catalog item.productId = some p ∧
        p.in_stock = true) →
      (∃ item ∈ items, ∃ p, findProduct catalog item.productId = some p ∧
        stockTooLow p item.quantity = true) →
      ∃ t, create_order_from_checkout catalog user_id order_number today phone
          national_id city address postal_code client_total_toman items =
        .error (CheckoutError.insufficientStock t)) ∧
    (∀ L i p s, validateItems (findProduct catalog) items = .ok L →
      client_total_toman = (L.map (·.line_total_toman)).sum →
      i ∈ items →
      findProduct catalog i.productId = some p →
      p.stock_quantity = some s →
      (i.quantity : Int) = s →
      (items.map (·.productId)).count i.productId = 1 →
      ∃ r, create_order_from_checkout catalog user_id order_number today phone
          national_id city address postal_code client_total_toman items = .ok r ∧
        ∃ p2, findProduct r.catalog i.productId = some p2 ∧
          p2.stock_quantity = some 0) := by
  constructor
  · intro h1 h2
    have hmiss : (items.map (·.productId)).filter
        (fun pid => (findProduct catalog pid).isNone) = [] := by
      apply missing_nil
      intro item hmem
      rcases h1 item hmem with ⟨p, hp, _⟩
      rw [hp]
      rfl
    rcases validateItems_insufficient (findProduct catalog) items h1 h2 with ⟨t, ht⟩
    exact ⟨t, create_eq_err_validate catalog user_id order_number today phone
      national_id city address postal_code client_total_toman items _ hmiss ht⟩
  · intro L i p s hval htot hmem hp hs hq hcount
    have hmiss : (items.map (·.productId)).filter
        (fun pid => (findProduct catalog pid).isNone) = [] :=
      missing_nil catalog items (validateItems_found catalog items L hval)
    refine ⟨_, create_eq_ok catalog user_id order_number today phone national_id
      city address postal_code client_total_toman items L hmiss hval htot, ?_⟩
    have hf2 := validateItems_ok_forall2 (findProduct catalog) items L hval
    have hpids := forall2_pids catalog hf2
    rcases forall2_exists_right hf2 hmem with ⟨li, hliL, hrel⟩
    have hlip : li.product = p := by
      have h1 := hrel.1
      rw [hp] at h1
      injection h1 with e
      exact e.symm
    have hpidi : li.product.pid = i.productId := findProduct_pid _ _ _ hrel.1
    have hcnt : (L.map (·.product.pid)).count i.productId = 1 := by
      rw [hpids]
      exact hcount
    have hsomeli : li.product.stock_quantity.isSome = true := by
      rw [hlip, hs]
      rfl
    have htq := totalQty_count_one i.productId L li hcnt hliL hpidi hsomeli
    simp only [CheckoutResult.catalog]
    rw [findProduct_decrementAll catalog L i.productId, hp]
    refine ⟨decBy (totalQty i.productId L) p, rfl, ?_⟩
    rw [htq, hrel.2.1]
    simp only [decBy, hs, Option.map_some']
    rw [hq]
    simp

theorem insufficient_and_exact_stock_witness :
    (∃ t, create_order_from_checkout wCatalog 1 "C3" 7 "p" "n" "c" "a" "z" 200
        [{ productId := 2, quantity := 4 }] =
      .error (CheckoutError.insufficientStock t)) ∧
    (∃ r, create_order_from_checkout wCatalog 1 "C3" 7 "p" "n" "c" "a" "z" 150
        wItems = .ok r ∧
      ∃ p2, findProduct r.catalog 2 = some p2 ∧ p2.stock_quantity = some 0) :=
  ⟨(insufficient_and_exact_stock wCatalog 1 "C3" 7 "p" "n" "c" "a" "z" 200
      [{ productId := 2, quantity := 4 }]).1
    (by
      intro item hmem
      rw [List.mem_singleton] at hmem
      subst hmem
      exact ⟨wProduct, by decide, by decide⟩)
    ⟨{ productId := 2, quantity := 4 }, by decide, wProduct, by decide, by decide⟩,
   (insufficient_and_exact_stock wCatalog 1 "C3" 7 "p" "n" "c" "a" "z" 150
      wItems).2 [mkLineItem wProduct 3] { productId := 2, quantity := 3 } wProduct 3
    (by rfl) (by decide) (by decide) (by decide) (by decide) (by decide)
    (by decide)⟩

/-- C10: every successfully created order stores a checkout whose
client-declared total equals the order's server-computed amount, because the
exact-match check makes the two equal before anything is persisted. -/
theorem client_total_eq_order_amount
    (catalog : List Product) (user_id : Nat) (order_number : String) (today : Nat)
    (phone national_id city address postal_code : String)
    (client_total_toman : Nat) (items : List CartItem) (r : CheckoutResult)
    (hok : create_order_from_checkout catalog user_id order_number today phone
        national_id city address postal_code client_total_toman items = .ok r) :
    r.checkout.client_total_toman = r.order.amount_toman := by
  obtain ⟨L, _, htot, _, hamt, hct, _⟩ := create_ok_parts catalog user_id
    order_number today phone national_id city address postal_code
    client_total_toman items r hok
  rw [hct, hamt]
  exact htot

theorem client_total_eq_order_amount_witness :
    wResultR.checkout.client_total_toman = wResultR.order.amount_toman :=
  client_total_eq_order_amount wCatalog 1 "C3" 7 "p" "n" "c" "a" "z" 150
    wItems wResultR (by rfl)

end Medident
